import Mathlib

/-!
Verification development for the dual-target rendering core of the
2024_GROUP_5 VRproject repository (ModelPart / ModelPartList /
VRRenderThread / MainWindow).  The C++ classes are embedded shallowly:
heap objects become records, pointer-valued members become `Option`
fields or indices into an explicit heap, and the external VTK
collaborators (mesh reader, shrink/clip/geometry filters, actor
rotations) are kept abstract as function parameters, since the
repository only drives them.
-/

/-- RGB colour triple as stored by `QColor` (`ModelPart::partColor`). -/
structure Color where
  r : Nat
  g : Nat
  b : Nat
deriving DecidableEq

/-- Three-component double vector (clip-plane origins and normals, actor
positions); doubles are modelled as rationals. -/
structure Vec3 where
  x : Rat
  y : Rat
  z : Rat
deriving DecidableEq

/-- A `vtkPolyData` value: point and cell counts plus a tag
distinguishing meshes with equal counts.  `DeepCopy` is value copying. -/
structure PolyData where
  points : Nat
  cells : Nat
  tag : Nat
deriving DecidableEq

/-- A `vtkUnstructuredGrid` value, the output type of `vtkShrinkFilter`,
which is not directly renderable and is passed through
`vtkGeometryFilter`. -/
structure UGrid where
  points : Nat
  cells : Nat
  tag : Nat
deriving DecidableEq

/-- The external VTK geometry filters driven by
`ModelPart::updateFilters`: `vtkShrinkFilter` (factor), the
polygonalizing `vtkGeometryFilter`, and `vtkClipClosedSurface`
(plane origin and normal, faces generated).  They are deterministic
collaborators of the core, kept abstract. -/
structure VtkOps where
  shrink : Rat → PolyData → UGrid
  geometry : UGrid → PolyData
  clipClosed : Vec3 → Vec3 → PolyData → PolyData

/-- A `vtkProperty` heap object (colour and opacity). -/
structure VtkProperty where
  color : Color
  opacity : Rat
deriving DecidableEq

/-- A `vtkActor`: object identity, a pointer to its `vtkProperty`
(shared when `SetProperty` links two actors to one property), the
actor's own visibility flag, and an optional shared user matrix. -/
structure VtkActor where
  aid : Nat
  propRef : Nat
  visibility : Bool
  userMatrixRef : Option Nat
deriving DecidableEq

/-- The VTK object heap: allocated `vtkProperty` objects (addressed by
index), a counter of fresh actor identities, and the `qWarning` log. -/
structure World where
  props : List VtkProperty
  nextActorId : Nat
  log : List String
deriving DecidableEq

def World.init : World := ⟨[], 0, []⟩

/-- Colour currently observed through a property pointer. -/
def World.propColor (w : World) (ref : Nat) : Color :=
  (w.props.getD ref ⟨⟨0, 0, 0⟩, 1⟩).color

/-- `vtkProperty::SetColor` through a property pointer. -/
def World.setPropColor (w : World) (ref : Nat) (c : Color) : World :=
  { w with props := w.props.set ref { w.props.getD ref ⟨⟨0, 0, 0⟩, 1⟩ with color := c } }

/-- Per-part state of `ModelPart` (the iteration in
`src/VRproject/ModelPart.cpp` lines 391-800): tree-column data, colour,
visibility, clip/shrink filter state, the cached immutable original
geometry, the mapper (present iff geometry loaded, holding its bound
input data), and the desktop actor. -/
structure ModelPart where
  itemData : List String
  partColor : Color
  isVisible : Bool
  clipEnabled : Bool
  shrinkEnabled : Bool
  shrinkFactor : Rat
  clipOrigin : Vec3
  clipNormal : Vec3
  originalData : Option PolyData
  mapperData : Option PolyData
  actor : Option VtkActor
deriving DecidableEq

/-- `ModelPart::ModelPart(data, parent)`: default white colour, visible,
both filters disabled, shrink factor 0.8, clip plane origin (0,0,0) and
normal (-1,0,0); the VTK smart-pointer members default to null. -/
def newModelPart (data : List String) : ModelPart :=
  { itemData := data
    partColor := ⟨255, 255, 255⟩
    isVisible := true
    clipEnabled := false
    shrinkEnabled := false
    shrinkFactor := 0.8
    clipOrigin := ⟨0, 0, 0⟩
    clipNormal := ⟨-1, 0, 0⟩
    originalData := none
    mapperData := none
    actor := none }

/-- `ModelPart::visible`. -/
def ModelPart.visible (p : ModelPart) : Bool := p.isVisible

/-- `ModelPart::getActor`. -/
def ModelPart.getActor (p : ModelPart) : Option VtkActor := p.actor

/-- `ModelPart::data(column, DisplayRole)`. -/
def ModelPart.data (p : ModelPart) (column : Nat) : String :=
  p.itemData.getD column ""

/-- `ModelPart::set(column, value)`. -/
def ModelPart.set (p : ModelPart) (column : Nat) (value : String) : ModelPart :=
  if column < p.itemData.length then { p with itemData := p.itemData.set column value } else p

/-- `ModelPart::setName`. -/
def ModelPart.setName (p : ModelPart) (newName : String) : ModelPart :=
  p.set 0 newName

/-- `ModelPart::setColor`: stores the colour and, if the actor exists,
writes it through the actor's property pointer. -/
def ModelPart.setColor (c : Color) (w : World) (p : ModelPart) : World × ModelPart :=
  let p1 := { p with partColor := c }
  match p.actor with
  | some a => (w.setPropColor a.propRef c, p1)
  | none => (w, p1)

/-- `ModelPart::setVisible`: stores the flag, mirrors it into column 1,
and updates the actor's own visibility if the actor exists. -/
def ModelPart.setVisible (b : Bool) (p : ModelPart) : ModelPart :=
  let p1 := { p with isVisible := b }
  let p2 := p1.set 1 (if b then "true" else "false")
  match p2.actor with
  | some a => { p2 with actor := some { a with visibility := b } }
  | none => p2

/-- `ModelPart::updateFilters`: bails out unless both the original
geometry and the mapper exist; deep-copies the original, applies
shrink + geometry filter when enabled, then the closed-surface clip
when enabled, and binds the result to the mapper. -/
def ModelPart.updateFilters (ops : VtkOps) (p : ModelPart) : ModelPart :=
  match p.originalData, p.mapperData with
  | some orig, some _ =>
    let processed := orig
    let processed := if p.shrinkEnabled then ops.geometry (ops.shrink p.shrinkFactor processed) else processed
    let processed := if p.clipEnabled then ops.clipClosed p.clipOrigin p.clipNormal processed else processed
    { p with mapperData := some processed }
  | _, _ => p

/-- `ModelPart::applyClipFilter(enable, origin, normal)`: stores the
flag, copies the plane only when enabling, and re-derives. -/
def ModelPart.applyClipFilter (ops : VtkOps) (enable : Bool) (origin normal : Vec3) (p : ModelPart) : ModelPart :=
  let p1 := { p with clipEnabled := enable }
  let p2 := if enable then { p1 with clipOrigin := origin, clipNormal := normal } else p1
  p2.updateFilters ops

/-- `ModelPart::applyShrinkFilter(enable, factor)`: stores the flag and
the factor unconditionally and re-derives. -/
def ModelPart.applyShrinkFilter (ops : VtkOps) (enable : Bool) (factor : Rat) (p : ModelPart) : ModelPart :=
  ({ p with shrinkEnabled := enable, shrinkFactor := factor }).updateFilters ops

/-- `ModelPart::loadSTL`: decodes via the external `vtkSTLReader`
collaborator; on a null or empty mesh it warns and nulls the actor; on
success it deep-copies the original, creates the mapper bound to it,
creates the actor with a fresh property carrying `partColor`, and
re-derives. -/
def ModelPart.loadSTL (ops : VtkOps) (reader : String → Option PolyData) (fileName : String)
    (w : World) (p : ModelPart) : World × ModelPart :=
  match reader fileName with
  | none => ({ w with log := w.log ++ ["STL load failed or empty: " ++ fileName] }, { p with actor := none })
  | some polyData =>
    if polyData.points = 0 ∨ polyData.cells = 0 then
      ({ w with log := w.log ++ ["STL load failed or empty: " ++ fileName] }, { p with actor := none })
    else
      let orig := polyData
      let propRef := w.props.length
      let a : VtkActor := ⟨w.nextActorId, propRef, true, none⟩
      let w1 : World := { w with props := w.props ++ [⟨p.partColor, 1⟩], nextActorId := w.nextActorId + 1 }
      let p1 := { p with originalData := some orig, mapperData := some orig, actor := some a }
      (w1, p1.updateFilters ops)

/-- `ModelPart::getVRActor`: returns null unless mapper and actor exist;
otherwise builds a new mapper on the same input connection and a new
actor whose property pointer is the desktop actor's (`SetProperty`),
whose visibility is copied from `isVisible`, and whose user matrix is
the desktop actor's. -/
def ModelPart.getVRActor (w : World) (p : ModelPart) : World × Option VtkActor :=
  match p.mapperData, p.actor with
  | some _, some a =>
    ({ w with nextActorId := w.nextActorId + 1 },
     some ⟨w.nextActorId, a.propRef, p.isVisible, a.userMatrixRef⟩)
  | _, _ => (w, none)

/-- Modelled from the spec (section 4.2): the re-derivation pipeline as
the specification words it — start from a full copy of the original
geometry, shrink toward cell centroids and polygonalize when shrink is
enabled, then half-space clip and close the surface when clip is
enabled.  Used to compare `ModelPart.updateFilters` against the spec's
fixed shrink-then-clip order. -/
def specPipeline (ops : VtkOps) (shrinkEnabled clipEnabled : Bool) (factor : Rat)
    (origin normal : Vec3) (g : PolyData) : PolyData :=
  let s1 := g
  let s2 := if shrinkEnabled then ops.geometry (ops.shrink factor s1) else s1
  if clipEnabled then ops.clipClosed origin normal s2 else s2

/-- Concrete VTK filter instantiation used to evaluate the model on
concrete inputs: each stage stamps the mesh tag so stages are visible. -/
def constOps : VtkOps :=
  { shrink := fun _ m => ⟨m.points, m.cells, m.tag + 1⟩
    geometry := fun u => ⟨u.points, u.cells, u.tag + 1⟩
    clipClosed := fun _ _ m => ⟨m.points, m.cells, m.tag + 2⟩ }

/-- Concrete mesh-reader collaborator: "wheel.stl" decodes to a
500-point, 900-cell mesh; "empty.stl" decodes to an empty mesh. -/
def sampleReader (name : String) : Option PolyData :=
  if name = "empty.stl" then some ⟨0, 0, 0⟩ else some ⟨500, 900, 7⟩

/-- A part that has successfully loaded "wheel.stl" into a fresh world. -/
def sampleLoaded : World × ModelPart :=
  (newModelPart ["wheel.stl", "true"]).loadSTL constOps sampleReader "wheel.stl" World.init

/-- A `ModelPart` object as it sits in the scene tree: its heap id, its
own state, and its ordered `m_childItems`. -/
inductive PartNode where
  | node (pid : Nat) (part : ModelPart) (children : List PartNode)

def PartNode.pid : PartNode → Nat
  | .node i _ _ => i

def PartNode.part : PartNode → ModelPart
  | .node _ p _ => p

def PartNode.children : PartNode → List PartNode
  | .node _ _ cs => cs

/-- `ModelPart::childCount`. -/
def PartNode.childCount (t : PartNode) : Nat := t.children.length

/-- `ModelPart::appendChild` seen from the parent. -/
def PartNode.appendNode (t : PartNode) (c : PartNode) : PartNode :=
  match t with
  | .node i p cs => .node i p (cs ++ [c])

/-- `ModelPart::removeChild(row)`: detaches the child at `row` from
`m_childItems` when the row is in range; it never calls delete. -/
def PartNode.removeChild (row : Int) : PartNode → PartNode
  | .node i p cs =>
    if 0 ≤ row ∧ row < (cs.length : Int) then .node i p (cs.eraseIdx row.toNat)
    else .node i p cs

/-- The `for` loop of `ModelPartList::removeRows`: `count` calls of
`removeChild` at the same index. -/
def removeLoop (row : Int) (count : Nat) (t : PartNode) : PartNode :=
  match count with
  | 0 => t
  | n + 1 => removeLoop row n (t.removeChild row)

/-- `ModelPartList::removeRows(row, count, parent)` acting on the parent
item: bounds-checked, then `count` detachments. -/
def removeRows (row count : Int) (t : PartNode) : Bool × PartNode :=
  if row < 0 ∨ row + count > (t.childCount : Int) then (false, t)
  else (true, removeLoop row count.toNat t)

/-- `ModelPartList::removeRow(row, parent)`. -/
def removeRow (row : Int) (t : PartNode) : Bool × PartNode :=
  removeRows row 1 t

mutual

/-- Pre-order traversal of the part ids in a subtree (the traversal
order of `MainWindow::updateRenderFromTree`). -/
def PartNode.preorder : PartNode → List Nat
  | .node i _ cs => i :: preorderList cs

/-- Pre-order traversal of a list of sibling subtrees. -/
def preorderList : List PartNode → List Nat
  | [] => []
  | t :: ts => t.preorder ++ preorderList ts

end

/-- The scene tree together with the set of heap-allocated `ModelPart`
objects (ids): `new` adds to `alloc`, only the destructor removes. -/
structure TreeSys where
  root : PartNode
  alloc : List Nat
  nextPid : Nat

/-- `removeRow` on the model: detaches from the tree; `alloc` is left
untouched because `removeChild` never deletes the detached object. -/
def removeRowSys (row : Int) (s : TreeSys) : Bool × TreeSys :=
  let r := removeRow row s.root
  (r.1, { s with root := r.2 })

/-- `ModelPartList::appendChild(data)`: allocates a new `ModelPart` from
`data` and appends it under the root. -/
def TreeSys.appendChild (s : TreeSys) (data : List String) : TreeSys :=
  { root := s.root.appendNode (.node s.nextPid (newModelPart data) [])
    alloc := s.alloc ++ [s.nextPid]
    nextPid := s.nextPid + 1 }

/-- The per-file body of `MainWindow::openFile`: derive the display name
(external `QFileInfo` collaborator `shortOf`), scan the immediate
top-level children of the root for a name collision, and either notify
and skip, or allocate-and-append a new part and run `loadSTL` on it
(composed here at value level: the appended child carries the loaded
state). -/
def openOneFile (ops : VtkOps) (reader : String → Option PolyData) (shortOf : String → String)
    (w : World) (s : TreeSys) (notices : List String) (fileName : String) :
    World × TreeSys × List String :=
  let shortName := shortOf fileName
  if s.root.children.any (fun c => c.part.data 0 = shortName) then
    (w, s, notices ++ ["Duplicate File: " ++ shortName])
  else
    let r := (newModelPart [shortName, "true"]).loadSTL ops reader fileName w
    (r.1,
     { root := s.root.appendNode (.node s.nextPid r.2 [])
       alloc := s.alloc ++ [s.nextPid]
       nextPid := s.nextPid + 1 },
     notices)

/-- The batch loop of `MainWindow::openFile` over the selected files. -/
def openFiles (ops : VtkOps) (reader : String → Option PolyData) (shortOf : String → String) :
    World → TreeSys → List String → List String → World × TreeSys × List String
  | w, s, notices, [] => (w, s, notices)
  | w, s, notices, f :: rest =>
    let r := openOneFile ops reader shortOf w s notices f
    openFiles ops reader shortOf r.1 r.2.1 r.2.2 rest

/-- An actor handed to the VR worker: identity, origin, position,
orientation parameters (acted on only by the external VTK rotation
collaborators), and visibility. -/
structure VActor where
  aid : Nat
  origin : Vec3
  position : Vec3
  orient : Vec3
  visibility : Bool
deriving DecidableEq

/-- External VTK actor-rotation collaborators (`RotateX/Y/Z` compose an
angle into the actor's orientation). -/
structure RotOps where
  rotX : Rat → Vec3 → Vec3
  rotY : Rat → Vec3 → Vec3
  rotZ : Rat → Vec3 → Vec3

/-- The command ids of the `VRRenderThread` command enum. -/
inductive VRCommand where
  | END_RENDER
  | ROTATE_X
  | ROTATE_Y
  | ROTATE_Z
  | TOGGLE_VISIBILITY
deriving DecidableEq

/-- `VRRenderThread` state: whether the QThread is running, the actor
collection, the stop flag, and the per-axis rotation increments. -/
structure VRRenderThread where
  running : Bool
  actors : List VActor
  endRender : Bool
  rotateX : Rat
  rotateY : Rat
  rotateZ : Rat
deriving DecidableEq

/-- `VRRenderThread::issueCommand(cmd, value)`: each command is a single
overwrite of shared state (or a visibility sweep over the actors). -/
def VRRenderThread.issueCommand (s : VRRenderThread) (cmd : VRCommand) (value : Rat) : VRRenderThread :=
  match cmd with
  | .END_RENDER => { s with endRender := true }
  | .ROTATE_X => { s with rotateX := value }
  | .ROTATE_Y => { s with rotateY := value }
  | .ROTATE_Z => { s with rotateZ := value }
  | .TOGGLE_VISIBILITY =>
    { s with actors := s.actors.map (fun a => { a with visibility := value > 0.5 }) }

/-- The in-place transform `addActorOffline` applies before queueing:
`RotateX(-90)` then `AddPosition(-origin)`. -/
def offlineTransform (ops : RotOps) (a : VActor) : VActor :=
  let a1 := { a with orient := ops.rotX (-90) a.orient }
  { a1 with position := ⟨a1.position.x - a1.origin.x, a1.position.y - a1.origin.y, a1.position.z - a1.origin.z⟩ }

/-- `VRRenderThread::addActorOffline(actor)`: guarded by
`!this->isRunning()`; while running nothing at all happens. -/
def VRRenderThread.addActorOffline (ops : RotOps) (s : VRRenderThread) (a : VActor) : VRRenderThread :=
  if s.running then s
  else { s with actors := s.actors ++ [offlineTransform ops a] }

/-- Environment of one `run()` loop iteration: the interactor's done
signal at each guard check, the effect of `DoOneEvent` on the scene, the
20 ms elapsed-time gate, and the rotation collaborators. -/
structure LoopEnv where
  done : Nat → Bool
  doEvent : Nat → List VActor → List VActor
  gate : Nat → Bool
  rot : RotOps

/-- One iteration of the `run()` loop body: process one event, and when
the time gate trips rotate every actor by the current per-axis
increments.  The body never touches `endRender`. -/
def iterBody (env : LoopEnv) (k : Nat) (s : VRRenderThread) : VRRenderThread :=
  let s1 := { s with actors := env.doEvent k s.actors }
  if env.gate k then
    let s2 := { s1 with actors := s1.actors.map (fun (a : VActor) => { a with orient := env.rot.rotX s1.rotateX a.orient }) }
    let s3 := { s2 with actors := s2.actors.map (fun (a : VActor) => { a with orient := env.rot.rotY s2.rotateY a.orient }) }
    { s3 with actors := s3.actors.map (fun (a : VActor) => { a with orient := env.rot.rotZ s3.rotateZ a.orient }) }
  else s1

/-- The `run()` render loop from an iteration boundary: guard
`!done && !endRender`, then one body iteration, repeating; returns the
final state and the number of body iterations executed. -/
def runLoop (env : LoopEnv) (fuel k : Nat) (s : VRRenderThread) : VRRenderThread × Nat :=
  match fuel with
  | 0 => (s, 0)
  | Nat.succ fuel1 =>
    if env.done k || s.endRender then (s, 0)
    else
      let r := runLoop env fuel1 (k + 1) (iterBody env k s)
      (r.1, r.2 + 1)

theorem ModelPart.updateFilters_originalData (ops : VtkOps) (p : ModelPart) :
    (p.updateFilters ops).originalData = p.originalData := by
  cases hp : p.originalData <;> cases hq : p.mapperData <;>
    simp [ModelPart.updateFilters, hp, hq]

theorem ModelPart.updateFilters_flags (ops : VtkOps) (p : ModelPart) :
    (p.updateFilters ops).shrinkEnabled = p.shrinkEnabled ∧
    (p.updateFilters ops).clipEnabled = p.clipEnabled ∧
    (p.updateFilters ops).shrinkFactor = p.shrinkFactor ∧
    (p.updateFilters ops).clipOrigin = p.clipOrigin ∧
    (p.updateFilters ops).clipNormal = p.clipNormal := by
  cases hp : p.originalData <;> cases hq : p.mapperData <;>
    simp [ModelPart.updateFilters, hp, hq]

/-- C2: for every Part with loaded geometry (original cached, mapper
present) and every filter state, `updateFilters` rebinds the mapper to
the pipeline of the specification applied to a copy of the immutable
original — shrink stage first, clip stage second — leaves the original
untouched, and when both filters are disabled the geometry bound to the
mapper is exactly the originally loaded geometry. -/
theorem updateFilters_shrink_then_clip (ops : VtkOps) (p : ModelPart) (g d : PolyData)
    (hg : p.originalData = some g) (hm : p.mapperData = some d) :
    (p.updateFilters ops).mapperData =
        some (specPipeline ops p.shrinkEnabled p.clipEnabled p.shrinkFactor p.clipOrigin p.clipNormal g) ∧
    (p.updateFilters ops).originalData = some g ∧
    (p.shrinkEnabled = false → p.clipEnabled = false →
      (p.updateFilters ops).mapperData = some g) := by
  refine ⟨?_, ?_, ?_⟩
  · simp [ModelPart.updateFilters, specPipeline, hg, hm]
  · simp [ModelPart.updateFilters, hg, hm]
  · intro h1 h2
    simp [ModelPart.updateFilters, hg, hm, h1, h2]

theorem updateFilters_shrink_then_clip_witness :
    (sampleLoaded.2.updateFilters constOps).mapperData =
        some (specPipeline constOps sampleLoaded.2.shrinkEnabled sampleLoaded.2.clipEnabled
          sampleLoaded.2.shrinkFactor sampleLoaded.2.clipOrigin sampleLoaded.2.clipNormal ⟨500, 900, 7⟩) ∧
    (sampleLoaded.2.updateFilters constOps).originalData = some ⟨500, 900, 7⟩ ∧
    (sampleLoaded.2.shrinkEnabled = false → sampleLoaded.2.clipEnabled = false →
      (sampleLoaded.2.updateFilters constOps).mapperData = some ⟨500, 900, 7⟩) :=
  updateFilters_shrink_then_clip constOps sampleLoaded.2 ⟨500, 900, 7⟩ ⟨500, 900, 7⟩ rfl rfl

/-- C8: re-derivation is deterministic (it is a function) and
idempotent: running `updateFilters` twice in succession, or re-applying
the same shrink or clip parameters, produces exactly the state produced
by running it once. -/
theorem updateFilters_idempotent (ops : VtkOps) (p : ModelPart) (enable clipEn : Bool)
    (factor : Rat) (origin normal : Vec3) :
    (p.updateFilters ops).updateFilters ops = p.updateFilters ops ∧
    (p.applyShrinkFilter ops enable factor).applyShrinkFilter ops enable factor =
      p.applyShrinkFilter ops enable factor ∧
    (p.applyClipFilter ops clipEn origin normal).applyClipFilter ops clipEn origin normal =
      p.applyClipFilter ops clipEn origin normal := by
  refine ⟨?_, ?_, ?_⟩
  · cases hp : p.originalData <;> cases hq : p.mapperData <;>
      simp [ModelPart.updateFilters, hp, hq]
  · cases hp : p.originalData <;> cases hq : p.mapperData <;>
      simp [ModelPart.applyShrinkFilter, ModelPart.updateFilters, hp, hq]
  · cases clipEn <;> cases hp : p.originalData <;> cases hq : p.mapperData <;>
      simp [ModelPart.applyClipFilter, ModelPart.updateFilters, hp, hq]

/-- C7 counterexample: calling `applyShrinkFilter` with factor 2, which
lies outside (0, 1], on a freshly loaded part is not rejected: the
stored shrink factor becomes 2, the enabled flag flips to true, and the
derived geometry bound to the mapper changes. -/
theorem applyShrinkFilter_out_of_range_mutates :
    (1 : Rat) < 2 ∧
    sampleLoaded.2.shrinkFactor = 0.8 ∧
    sampleLoaded.2.shrinkEnabled = false ∧
    (sampleLoaded.2.applyShrinkFilter constOps true 2).shrinkFactor = 2 ∧
    (sampleLoaded.2.applyShrinkFilter constOps true 2).shrinkEnabled = true ∧
    (sampleLoaded.2.applyShrinkFilter constOps true 2).mapperData ≠ sampleLoaded.2.mapperData :=
  ⟨by norm_num, rfl, rfl, rfl, rfl, by decide⟩

/-- C7 amended: `applyShrinkFilter` performs no range validation at all;
it stores the enabled flag and the factor unconditionally (also for
factors outside (0, 1]) and re-derives with the stored factor. -/
theorem applyShrinkFilter_stores_unconditionally (ops : VtkOps) (enable : Bool) (factor : Rat)
    (p : ModelPart) :
    (p.applyShrinkFilter ops enable factor).shrinkEnabled = enable ∧
    (p.applyShrinkFilter ops enable factor).shrinkFactor = factor := by
  constructor <;>
    cases hp : p.originalData <;> cases hq : p.mapperData <;>
      simp [ModelPart.applyShrinkFilter, ModelPart.updateFilters, hp, hq]

/-- C10: every newly constructed Part starts visible, with clip and
shrink disabled, shrink factor 0.8, clip plane origin (0,0,0) and
normal (-1,0,0), and with no render actor. -/
theorem newModelPart_defaults (data : List String) :
    (newModelPart data).visible = true ∧
    (newModelPart data).clipEnabled = false ∧
    (newModelPart data).shrinkEnabled = false ∧
    (newModelPart data).shrinkFactor = 0.8 ∧
    (newModelPart data).clipOrigin = ⟨0, 0, 0⟩ ∧
    (newModelPart data).clipNormal = ⟨-1, 0, 0⟩ ∧
    (newModelPart data).getActor = none :=
  ⟨rfl, rfl, rfl, rfl, rfl, rfl, rfl⟩

/-- The secondary actor obtained for the loaded sample part, and the
world after mutating the desktop part's colour to red afterwards. -/
def c1VR : World × Option VtkActor := sampleLoaded.2.getVRActor sampleLoaded.1

def c1Mutated : World × ModelPart := ModelPart.setColor ⟨255, 0, 0⟩ c1VR.1 sampleLoaded.2

/-- C1 counterexample: after obtaining the secondary (VR) actor of the
loaded sample part, mutating the desktop part's colour changes the
colour observed through the secondary actor's property pointer (index 0)
from white to red — the visual properties are shared by reference, not
copied by value. -/
theorem getVRActor_shared_property_counterexample :
    c1VR.2 = some ⟨1, 0, true, none⟩ ∧
    c1VR.1.propColor 0 = ⟨255, 255, 255⟩ ∧
    c1Mutated.1.propColor 0 = ⟨255, 0, 0⟩ := by
  decide

/-- C1 amended: `getVRActor` on a part with loaded geometry returns a
new actor distinct in identity from the desktop actor, whose visibility
is copied by value from the part, but whose property (colour/opacity)
and user matrix are shared by reference with the desktop actor. -/
theorem getVRActor_new_actor_shared_property (w : World) (p : ModelPart) (a : VtkActor)
    (d : PolyData) (ha : p.actor = some a) (hm : p.mapperData = some d)
    (hfresh : a.aid < w.nextActorId) :
    (p.getVRActor w).2 = some ⟨w.nextActorId, a.propRef, p.isVisible, a.userMatrixRef⟩ ∧
    w.nextActorId ≠ a.aid := by
  constructor
  · simp [ModelPart.getVRActor, hm, ha]
  · exact (Nat.ne_of_lt hfresh).symm

theorem getVRActor_new_actor_shared_property_witness :
    (sampleLoaded.2.getVRActor sampleLoaded.1).2 =
        some ⟨sampleLoaded.1.nextActorId, 0, sampleLoaded.2.isVisible, none⟩ ∧
    sampleLoaded.1.nextActorId ≠ 0 :=
  getVRActor_new_actor_shared_property sampleLoaded.1 sampleLoaded.2 ⟨0, 0, true, none⟩
    ⟨500, 900, 7⟩ rfl rfl (by decide)

theorem preorderList_append (xs ys : List PartNode) :
    preorderList (xs ++ ys) = preorderList xs ++ preorderList ys := by
  induction xs with
  | nil => rfl
  | cons t ts ih => simp [preorderList, ih]

theorem nodup_middle_not_mem {i : Nat} {A B C : List Nat}
    (h : (i :: (A ++ (B ++ C))).Nodup) : ∀ x ∈ B, x ≠ i ∧ x ∉ A ++ C := by
  intro x hx
  rcases List.nodup_cons.mp h with ⟨hi, h2⟩
  rcases List.nodup_append.mp h2 with ⟨_, hBC, hdisj⟩
  rcases List.nodup_append.mp hBC with ⟨_, _, hdBC⟩
  refine ⟨?_, ?_⟩
  · intro he
    subst he
    exact hi (by simp [hx])
  · intro hmem
    rcases List.mem_append.mp hmem with hA | hC
    · exact hdisj hA (by simp [hx])
    · exact hdBC hx hC

/-- The subtree detached by a successful row removal. -/
def c4Removed : PartNode :=
  .node 1 (newModelPart ["body.stl", "true"]) [.node 2 (newModelPart ["sub.stl", "true"]) []]

/-- A tree whose root owns one child (id 1) with one grandchild (id 2);
all three `ModelPart` objects are heap-allocated. -/
def c4Sys : TreeSys := ⟨.node 0 (newModelPart ["Part", "Visible"]) [c4Removed], [0, 1, 2], 3⟩

/-- C4 counterexample: removing row 0 succeeds and detaches the subtree,
but the removed Part (id 1) and its descendant (id 2) are still
allocated afterwards — `removeChild` only calls `removeAt`, never
delete, so nothing is destroyed. -/
theorem removeRow_leaves_subtree_allocated_counterexample :
    (removeRowSys 0 c4Sys).1 = true ∧
    (removeRowSys 0 c4Sys).2.root.children = [] ∧
    (removeRowSys 0 c4Sys).2.alloc = [0, 1, 2] ∧
    1 ∈ (removeRowSys 0 c4Sys).2.alloc ∧ 2 ∈ (removeRowSys 0 c4Sys).2.alloc :=
  ⟨rfl, rfl, rfl, by decide, by decide⟩

/-- C4 amended: `removeRow(row, parent)` returns false and leaves the
tree unchanged when the row is outside [0, childCount); otherwise it
returns true and detaches the child subtree at that row (without
destroying it — the allocation set is untouched, the objects leak), and
when the tree's part ids are distinct, a subsequent traversal of the
tree never reaches the removed Part or any of its descendants. -/
theorem removeLoop_one (row : Int) (t : PartNode) :
    removeLoop row 1 t = t.removeChild row := rfl

theorem removeRow_detaches_without_destroying (s : TreeSys) (row : Int) :
    ((row < 0 ∨ (s.root.childCount : Int) ≤ row) → removeRowSys row s = (false, s)) ∧
    (∀ k : Nat, row = (k : Int) → ∀ h : k < s.root.children.length,
      (removeRowSys row s).1 = true ∧
      (removeRowSys row s).2.alloc = s.alloc ∧
      (removeRowSys row s).2.root.children = s.root.children.eraseIdx k ∧
      ((s.root.preorder).Nodup →
        ∀ i ∈ (s.root.children.get ⟨k, h⟩).preorder,
          i ∉ (removeRowSys row s).2.root.preorder)) := by
  obtain ⟨root, alloc, nextPid⟩ := s
  obtain ⟨rid, rpart, cs⟩ := root
  constructor
  · intro hout
    have hcond : row < 0 ∨ row + 1 > ((cs.length : Nat) : Int) := by
      dsimp only [PartNode.childCount, PartNode.children] at hout
      omega
    simp only [removeRowSys, removeRow, removeRows, PartNode.childCount, PartNode.children]
    rw [if_pos hcond]
  · intro k hk h
    subst hk
    have hlen : k < cs.length := by
      dsimp only [PartNode.children] at h
      exact h
    have hcond : ¬((k : Int) < 0 ∨ (k : Int) + 1 > ((cs.length : Nat) : Int)) := by omega
    have hstep : removeRowSys (k : Int) ⟨PartNode.node rid rpart cs, alloc, nextPid⟩ =
        (true, ⟨PartNode.node rid rpart (cs.eraseIdx k), alloc, nextPid⟩) := by
      simp only [removeRowSys, removeRow, removeRows, PartNode.childCount, PartNode.children]
      rw [if_neg hcond]
      have h1 : ((1 : Int)).toNat = 1 := rfl
      rw [h1, removeLoop_one]
      simp only [PartNode.removeChild]
      rw [if_pos ⟨by omega, by exact_mod_cast hlen⟩]
      simp
    refine ⟨by rw [hstep], by rw [hstep], by rw [hstep]; rfl, ?_⟩
    intro hnodup x hx
    rw [hstep]
    dsimp only [PartNode.children, PartNode.preorder] at hnodup hx ⊢
    have hdecomp : cs = cs.take k ++ (cs.get ⟨k, hlen⟩ :: cs.drop (k + 1)) := by
      conv_lhs => rw [← List.take_append_drop k cs]
      rw [List.drop_eq_getElem_cons hlen]
      simp
    have herase : cs.eraseIdx k = cs.take k ++ cs.drop (k + 1) :=
      List.eraseIdx_eq_take_drop_succ cs k
    have hnodup2 : (rid :: (preorderList (cs.take k) ++
        ((cs.get ⟨k, hlen⟩).preorder ++ preorderList (cs.drop (k + 1))))).Nodup := by
      have heq : preorderList cs = preorderList (cs.take k) ++
          ((cs.get ⟨k, hlen⟩).preorder ++ preorderList (cs.drop (k + 1))) := by
        conv_lhs => rw [hdecomp]
        rw [preorderList_append]
        simp [preorderList]
      rw [heq] at hnodup
      exact hnodup
    have hkey := nodup_middle_not_mem hnodup2 x hx
    rw [herase, preorderList_append]
    simp only [List.mem_cons, List.mem_append]
    rintro (he | hm | hm)
    · exact hkey.1 he
    · exact hkey.2 (List.mem_append.mpr (Or.inl hm))
    · exact hkey.2 (List.mem_append.mpr (Or.inr hm))

theorem removeRow_detaches_without_destroying_witness :
    ((3 : Int) < 0 ∨ (c4Sys.root.childCount : Int) ≤ 3 → removeRowSys 3 c4Sys = (false, c4Sys)) ∧
    ((removeRowSys 0 c4Sys).1 = true ∧
      (removeRowSys 0 c4Sys).2.alloc = c4Sys.alloc ∧
      (removeRowSys 0 c4Sys).2.root.children = c4Sys.root.children.eraseIdx 0 ∧
      ((c4Sys.root.preorder).Nodup →
        ∀ i ∈ (c4Sys.root.children.get ⟨0, by decide⟩).preorder,
          i ∉ (removeRowSys 0 c4Sys).2.root.preorder)) :=
  ⟨fun hout => (removeRow_detaches_without_destroying c4Sys 3).1 hout,
   (removeRow_detaches_without_destroying c4Sys 0).2 0 rfl (by decide)⟩

/-- C5: loading a file whose display name equals the name of an
existing immediate top-level sibling is rejected with a notification:
the tree (hence its child count and the already-present Part) and the
VTK world are unchanged, and no partial mutation occurs. -/
theorem openFile_rejects_duplicate (ops : VtkOps) (reader : String → Option PolyData)
    (shortOf : String → String) (w : World) (s : TreeSys) (notices : List String)
    (fileName : String)
    (hdup : s.root.children.any (fun c => c.part.data 0 = shortOf fileName) = true) :
    openOneFile ops reader shortOf w s notices fileName =
      (w, s, notices ++ ["Duplicate File: " ++ shortOf fileName]) := by
  simp only [openOneFile]
  rw [hdup]
  simp

/-- A tree already holding a top-level part named "wheel.stl". -/
def c5Sys : TreeSys :=
  ⟨.node 0 (newModelPart ["Part", "Visible"]) [.node 1 (newModelPart ["wheel.stl", "true"]) []],
   [0, 1], 2⟩

theorem openFile_rejects_duplicate_witness :
    openOneFile constOps sampleReader id World.init c5Sys [] "wheel.stl" =
      (World.init, c5Sys, [] ++ ["Duplicate File: " ++ id "wheel.stl"]) :=
  openFile_rejects_duplicate constOps sampleReader id World.init c5Sys [] "wheel.stl" rfl

/-- C6: loading a file that decodes to a mesh with zero points or zero
cells appends the Part to the tree geometry-less (its actor accessor
yields none), logs the failure, raises no duplicate notice, and the
batch loop continues with the remaining files; being a total function,
the load propagates no exception. -/
theorem openFile_empty_mesh_recoverable (ops : VtkOps) (reader : String → Option PolyData)
    (shortOf : String → String) (w : World) (s : TreeSys) (notices : List String)
    (fileName : String) (rest : List String) (m : PolyData)
    (hnew : s.root.children.any (fun c => c.part.data 0 = shortOf fileName) = false)
    (hread : reader fileName = some m) (hempty : m.points = 0 ∨ m.cells = 0) :
    openOneFile ops reader shortOf w s notices fileName =
      ({ w with log := w.log ++ ["STL load failed or empty: " ++ fileName] },
       { root := s.root.appendNode (.node s.nextPid (newModelPart [shortOf fileName, "true"]) [])
         alloc := s.alloc ++ [s.nextPid]
         nextPid := s.nextPid + 1 },
       notices) ∧
    (newModelPart [shortOf fileName, "true"]).getActor = none ∧
    openFiles ops reader shortOf w s notices (fileName :: rest) =
      (let r := openOneFile ops reader shortOf w s notices fileName
       openFiles ops reader shortOf r.1 r.2.1 r.2.2 rest) := by
  refine ⟨?_, rfl, rfl⟩
  simp only [openOneFile]
  rw [hnew]
  simp only [Bool.false_eq_true, if_false, ModelPart.loadSTL]
  rw [hread]
  simp only [if_pos hempty]
  simp [newModelPart]

/-- An empty scene tree about to receive its first file. -/
def c6Sys : TreeSys := ⟨.node 0 (newModelPart ["Part", "Visible"]) [], [0], 1⟩

theorem openFile_empty_mesh_recoverable_witness :
    openOneFile constOps sampleReader id World.init c6Sys [] "empty.stl" =
      ({ World.init with log := World.init.log ++ ["STL load failed or empty: " ++ "empty.stl"] },
       { root := c6Sys.root.appendNode (.node c6Sys.nextPid (newModelPart [id "empty.stl", "true"]) [])
         alloc := c6Sys.alloc ++ [c6Sys.nextPid]
         nextPid := c6Sys.nextPid + 1 },
       []) ∧
    (newModelPart [id "empty.stl", "true"]).getActor = none ∧
    openFiles constOps sampleReader id World.init c6Sys [] ("empty.stl" :: ["wheel.stl"]) =
      (let r := openOneFile constOps sampleReader id World.init c6Sys [] "empty.stl"
       openFiles constOps sampleReader id r.1 r.2.1 r.2.2 ["wheel.stl"]) :=
  openFile_empty_mesh_recoverable constOps sampleReader id World.init c6Sys [] "empty.stl"
    ["wheel.stl"] ⟨0, 0, 0⟩ rfl rfl (Or.inl rfl)

theorem iterBody_endRender (env : LoopEnv) (k : Nat) (s : VRRenderThread) :
    (iterBody env k s).endRender = s.endRender := by
  cases hg : env.gate k <;> simp [iterBody, hg]

/-- C3: issuing `END_RENDER` sets the stop flag; the render loop,
resumed at any iteration boundary with the flag set, exits immediately
with zero further iterations, and even when the command lands during an
in-flight iteration (which never clears the flag) the loop exits at the
next boundary — it never continues past an iteration that observes the
flag. -/
theorem issueCommand_end_render_stops (env : LoopEnv) (fuel k j : Nat) (s : VRRenderThread)
    (v : Rat) (hrun : s.running = true) :
    (s.issueCommand .END_RENDER v).endRender = true ∧
    runLoop env fuel k (s.issueCommand .END_RENDER v) = (s.issueCommand .END_RENDER v, 0) ∧
    runLoop env fuel k (iterBody env j (s.issueCommand .END_RENDER v)) =
      (iterBody env j (s.issueCommand .END_RENDER v), 0) := by
  refine ⟨rfl, ?_, ?_⟩
  · cases fuel <;> simp [runLoop, VRRenderThread.issueCommand]
  · cases fuel <;> simp [runLoop, iterBody_endRender, VRRenderThread.issueCommand]

/-- A running worker and a trivial loop environment, used to evaluate
the stop behaviour concretely. -/
def c3Thread : VRRenderThread := ⟨true, [], false, 0, 0, 0⟩

def c3Env : LoopEnv :=
  ⟨fun _ => false, fun _ a => a, fun _ => true, ⟨fun _ v => v, fun _ v => v, fun _ v => v⟩⟩

theorem issueCommand_end_render_stops_witness :
    (c3Thread.issueCommand .END_RENDER 0).endRender = true ∧
    runLoop c3Env 5 0 (c3Thread.issueCommand .END_RENDER 0) =
      (c3Thread.issueCommand .END_RENDER 0, 0) ∧
    runLoop c3Env 5 0 (iterBody c3Env 1 (c3Thread.issueCommand .END_RENDER 0)) =
      (iterBody c3Env 1 (c3Thread.issueCommand .END_RENDER 0), 0) :=
  issueCommand_end_render_stops c3Env 5 0 1 c3Thread 0 rfl

/-- C9: `addActorOffline` mutates the actor collection only while the
worker is not running — when idle the (repositioned) actor is appended
with its identity preserved; when running the call is a complete no-op. -/
theorem addActorOffline_guarded_by_running (ops : RotOps) (s : VRRenderThread) (a : VActor) :
    (s.running = false →
      s.addActorOffline ops a = { s with actors := s.actors ++ [offlineTransform ops a] } ∧
      (offlineTransform ops a).aid = a.aid) ∧
    (s.running = true → s.addActorOffline ops a = s) := by
  constructor
  · intro h
    exact ⟨by simp [VRRenderThread.addActorOffline, h], rfl⟩
  · intro h
    simp [VRRenderThread.addActorOffline, h]

/-- Concrete idle and running workers and a trivial rotation collaborator. -/
def c9Idle : VRRenderThread := ⟨false, [], false, 0, 0, 0⟩

def c9Running : VRRenderThread := ⟨true, [], false, 0, 0, 0⟩

def c9Ops : RotOps := ⟨fun _ v => v, fun _ v => v, fun _ v => v⟩

def c9Actor : VActor := ⟨7, ⟨0, 0, 0⟩, ⟨0, 0, 0⟩, ⟨0, 0, 0⟩, true⟩

theorem addActorOffline_guarded_by_running_witness :
    (c9Idle.addActorOffline c9Ops c9Actor =
        { c9Idle with actors := c9Idle.actors ++ [offlineTransform c9Ops c9Actor] } ∧
      (offlineTransform c9Ops c9Actor).aid = c9Actor.aid) ∧
    c9Running.addActorOffline c9Ops c9Actor = c9Running :=
  ⟨(addActorOffline_guarded_by_running c9Ops c9Idle c9Actor).1 rfl,
   (addActorOffline_guarded_by_running c9Ops c9Running c9Actor).2 rfl⟩
